/-
Verification development for the parallel fetch orchestrator `pfetch.py` of
the pigsboss/toolbox repository.

The Python source is shallowly embedded below.  Machine-level conventions:

* Python dictionaries `job = {...}` (pfetch.py lines 85-100) and
  `worker = {...}` (lines 103-109) become the structures `MJob` and `MWorker`.
  The fields `command` and `output` (raw rsync output text) play no role in
  any claim and are omitted; `job['id']`, `job['status']`, `job['worker']`,
  `job['retry']`, `job['return']` and `worker['id']`, `worker['status']` are
  kept.  Python integers are embedded as `Int` (`retry`, exit codes).
* The subprocess call `subprocess.check_output` (line 181) either returns
  (exit code 0), raises `subprocess.CalledProcessError` carrying the nonzero
  exit code, or raises an `OSError` when the command cannot be executed at
  all; the type `SubprocResult` enumerates these outcomes, the exit code
  being an arbitrary integer supplied by the environment.
* The threaded run (dispatcher thread `dispatch`, worker threads `rsync`) is
  embedded as an interleaving transition system `Step` on `SysState`.  Each
  constructor corresponds to a contiguous block of bytecodes executed by one
  thread; CPython may switch threads between any two bytecodes, so every
  interleaving of these blocks is a possible real schedule.  The display
  thread (lines 111-151) only reads job/worker state and is omitted, and the
  main thread's shutdown phase (lines 236-251) is not modelled: all states
  constructed below occur while the run is in progress.
* Log file writes (lines 186-200) are embedded by the pure function
  `visitLog` computing the file name written during a visit.
-/
import Mathlib

/-- Job status strings of pfetch.py: 'pending', 'syncing', 'broken',
'failed', 'completed' (line 115). -/
inductive JStatus
  | pending
  | syncing
  | broken
  | failed
  | completed
deriving DecidableEq

/-- Worker status strings: 'idle', 'working', 'dismissed' (line 116). -/
inductive WStatus
  | idle
  | working
  | dismissed
deriving DecidableEq

/-- The global `retry = 100` of pfetch.py line 53 (initial retry budget). -/
def retryBudget : Int := 100

/-- A job dictionary, pfetch.py lines 86-100.  `worker` is `job['worker']`
(the id of the assigned worker or `None`), `retry` is `job['retry']`, and
`ret` is `job['return']` (last exit code or `None`).  The `command` and
`output` fields of the dictionary are omitted (irrelevant to the claims). -/
structure MJob where
  id     : Nat
  status : JStatus
  worker : Option Nat
  retry  : Int
  ret    : Option Int
deriving DecidableEq

/-- A freshly constructed job (lines 86-100): status 'pending', no assigned
worker, full retry budget, no recorded exit code. -/
def freshJob (jid : Nat) : MJob :=
  { id := jid, status := .pending, worker := none, retry := retryBudget, ret := none }

/-- A worker dictionary, lines 104-109 (the `output` list, display-only, is
omitted). -/
structure MWorker where
  id     : Nat
  status : WStatus
deriving DecidableEq

/-- Classification of a terminated transfer command by exit code,
pfetch.py lines 181-198: `check_output` returns only on exit code 0
(no exception, line 183: 'completed'); a nonzero exit code raises
`CalledProcessError` and lines 191-198 classify it: `< 20` gives 'failed',
otherwise 'broken'. -/
def rsyncOutcomeStatus (c : Int) : JStatus :=
  if c = 0 then .completed
  else if c < 20 then .failed
  else .broken

/-- Effect on the job record of one completed transfer attempt with exit
code `c` (lines 181-200): the status is classified by `rsyncOutcomeStatus`
and `job['return']` is set to `c` (lines 184, 190). -/
def attemptResultJob (c : Int) (j : MJob) : MJob :=
  { j with status := rsyncOutcomeStatus c, ret := some c }

/-- The 'broken' branch of the worker loop, lines 209-214: if
`job['retry'] > 0` the budget is decremented and the job is set back to
'pending'; otherwise the job is set to 'failed'.  Note that `job['worker']`
is not touched. -/
def recycleJob (j : MJob) : MJob :=
  if 0 < j.retry then { j with retry := j.retry - 1, status := .pending }
  else { j with status := .failed }

/-- Net effect on the job record of one scan visit by the worker that owns
the job (`job['worker'] == worker_id`), lines 175-219: a 'pending' job is
attempted (exit code `c` supplied by the environment), a 'broken' job is
recycled, and the 'syncing' / 'failed' / 'completed' branches only log. -/
def visitJob (c : Int) (j : MJob) : MJob :=
  match j.status with
  | .pending => attemptResultJob c j
  | .broken  => recycleJob j
  | _        => j

/-- Log file written on success, line 186. -/
def completedLogName (jid : Nat) : String :=
  "fetch_completed.job_" ++ toString jid ++ ".log"

/-- Log file written on a non-retryable failure, line 194. -/
def failedLogName (jid : Nat) : String :=
  "fetch_failed.job_" ++ toString jid ++ ".log"

/-- Log file written on a transient failure, line 199: the attempt number in
the name is `retry - job['retry']` with `retry` the global budget of line
53 and `job['retry']` the job's current (not yet decremented) counter. -/
def brokenLogName (jid : Nat) (jretry : Int) : String :=
  "fetch_broken.job_" ++ toString jid ++ ".try_" ++ toString (retryBudget - jretry) ++ ".log"

/-- The log file (if any) written during one owning-worker scan visit,
lines 186-200: only the attempt of a 'pending' job writes a per-job log,
chosen by the same exit-code classification as `rsyncOutcomeStatus`. -/
def visitLog (c : Int) (j : MJob) : Option String :=
  match j.status with
  | .pending =>
      some (if c = 0 then completedLogName j.id
            else if c < 20 then failedLogName j.id
            else brokenLogName j.id j.retry)
  | _ => none

/-- The job record along the run of a single job processed by its owning
worker, where `out n` is the exit code of the attempt performed at visit
`n` (if visit `n` performs one). -/
def runTrace (out : Nat → Int) (j : MJob) : Nat → MJob
  | 0     => j
  | n + 1 => visitJob (out n) (runTrace out j n)

/-- Result of `subprocess.check_output(job['command'], ...)` (line 181):
the command either runs to termination with some exit code, or invoking it
fails at the process level (Python raises `OSError`). -/
inductive SubprocResult
  | exited (c : Int)
  | execError

/-- The try/except body of the worker loop for a claimed pending job,
lines 178-200, together with whether the worker loop survives the visit.
The job's status is set to 'syncing' (line 179) before the subprocess call;
the `except` clause (line 188) catches only `subprocess.CalledProcessError`,
so on `execError` the `OSError` propagates out of the `while` loop of
`rsync` and terminates the worker thread, leaving the job in 'syncing'. -/
def workerAttempt : SubprocResult → MJob → MJob × Bool
  | .exited c, j  => (attemptResultJob c { j with status := .syncing }, true)
  | .execError, j => ({ j with status := .syncing }, false)

/-- Python 2 text-mode line iteration over a file's contents: lines are
split after each newline character, each line keeping its terminating
newline; a final segment with no terminating newline is yielded as is. -/
def pySplitLines : List Char → List Char → List (List Char)
  | [], acc => if acc.isEmpty then [] else [acc.reverse]
  | ch :: rest, acc =>
      if ch = '\n' then (acc.reverse ++ ['\n']) :: pySplitLines rest []
      else pySplitLines rest (ch :: acc)

/-- The manifest parser of pfetch.py line 74:
`fetch_list = [line[:-1] for line in f]` — every line, as yielded by file
iteration, has its final character removed. -/
def fetchListOf (s : String) : List String :=
  (pySplitLines s.data []).map (fun l => String.mk l.dropLast)

/-- ASCII lowercasing of one code point, the effect of Python's
`str.lower()` on the extension strings involved here (line 89). -/
def pyLowerN (n : Nat) : Nat :=
  if 65 ≤ n ∧ n ≤ 90 then n + 32 else n

/-- A Python string as its list of code points. -/
def codes (s : String) : List Nat :=
  s.data.map Char.toNat

/-- Index of the last occurrence of `c`, or `none` (Python `str.rfind`,
with `none` standing for the return value -1). -/
def rfindIdx (c : Nat) : List Nat → Option Nat
  | [] => none
  | x :: xs =>
      match rfindIdx c xs with
      | some i => some (i + 1)
      | none   => if x = c then some 0 else none

/-- The extension part of `os.path.splitext(p)` for POSIX paths
(CPython `genericpath._splitext` with `sep='/'`, `extsep='.'`): the suffix
from the last dot, provided that dot lies after the last path separator and
the base name does not consist solely of leading dots up to it. -/
def splitextExt (p : List Nat) : List Nat :=
  match rfindIdx 46 p with
  | none => []
  | some d =>
      let fi : Nat :=
        match rfindIdx 47 p with
        | none => 0
        | some s => s + 1
      if fi ≤ d ∧ ((p.drop fi).take (d - fi)).any (fun x => x ≠ 46) then p.drop d
      else []

/-- `COMMON_EXTS` of pfetch.py line 57, as code-point lists. -/
def COMMON_EXTS : List (List Nat) :=
  [".fits", ".db", ".h5", ".root", ".zip", ".gz", ".tar", ".bz2", ".xz"].map codes

/-- The single-file/directory-mirror classification of a manifest entry,
line 89: `path.splitext(entry)[-1].lower() in COMMON_EXTS`. -/
def isSingleFile (entry : List Nat) : Bool :=
  COMMON_EXTS.contains ((splitextExt entry).map pyLowerN)

/-- The dispatcher's inner for-loop, lines 162-164: for every worker in pool
order whose status is 'idle', `job['worker'] = worker['id']` is executed
(there is no `break`), starting from the job's current `worker` field. -/
def assignPass (ws : List MWorker) (jw : Option Nat) : Option Nat :=
  ws.foldl (fun acc w => if w.status = .idle then some w.id else acc) jw

/-- Control point of the dispatcher thread (the `dispatch` loop, lines
159-166).  `top i` is the head of the while loop about to examine
`jobs_pool[i % njobs]`; `assign j k i` is inside the for-loop of lines
162-164, about to examine `workers_pool[k]`, after the guard of line 161
was observed true for job `j` (the guard is not re-checked between the
individual `job['worker']` assignments). -/
inductive DispPC
  | top (i : Nat)
  | assign (j : Nat) (k : Nat) (i : Nat)
deriving DecidableEq

/-- Control point of one worker thread (the `rsync` loop, lines 172-223).
`scan i` is the head of the while loop about to examine
`jobs_pool[i % njobs]`; `claimed j i` is inside the 'pending' branch after
the checks of lines 174-175 succeeded and `worker['status'] = 'working'`
(line 177) was executed, but before `job['status'] = 'syncing'` (line 179);
`inFlight j i` is during the blocking `subprocess.check_output` call of
line 181; `recycling j i` is inside the 'broken' branch after line 208. -/
inductive WorkPC
  | scan (i : Nat)
  | claimed (j : Nat) (i : Nat)
  | inFlight (j : Nat) (i : Nat)
  | recycling (j : Nat) (i : Nat)
deriving DecidableEq

/-- The shared mutable state of the run plus the control points of the
dispatcher thread and of each worker thread.  `jobs` is `jobs_pool`,
`workers` is `workers_pool`; `wpcs.get? w` is the control point of the
worker thread running `rsync(w)`. -/
structure SysState where
  jobs    : List MJob
  workers : List MWorker
  dpc     : DispPC
  wpcs    : List WorkPC
deriving DecidableEq

/-- One atomic block of the dispatcher thread, lines 159-166.  Each
constructor is a contiguous block of bytecodes of the `dispatch` function;
thread switches may occur between blocks. -/
inductive DispStep : SysState → SysState → Prop
  /-- Line 160-161: the guard `status == 'pending' and worker is None`
  fails; move to the next loop iteration. -/
  | skip (s : SysState) (i : Nat) (j : MJob) :
      s.dpc = .top i →
      s.jobs.get? (i % s.jobs.length) = some j →
      ¬(j.status = .pending ∧ j.worker = none) →
      DispStep s { s with dpc := .top (i + 1) }
  /-- Line 160-161: the guard holds; enter the for-loop of line 162. -/
  | enter (s : SysState) (i : Nat) (j : MJob) :
      s.dpc = .top i →
      s.jobs.get? (i % s.jobs.length) = some j →
      j.status = .pending →
      j.worker = none →
      DispStep s { s with dpc := .assign (i % s.jobs.length) 0 i }
  /-- Lines 163-164: the worker at pool index `k` is 'idle', so
  `job['worker'] = worker['id']` is executed and the for-loop advances. -/
  | assignIdle (s : SysState) (j k i : Nat) (w : MWorker) (jb : MJob) :
      s.dpc = .assign j k i →
      s.workers.get? k = some w →
      w.status = .idle →
      s.jobs.get? j = some jb →
      DispStep s { s with jobs := s.jobs.set j { jb with worker := some w.id },
                          dpc := .assign j (k + 1) i }
  /-- Line 163: the worker at pool index `k` is not 'idle'; the for-loop
  advances without assigning. -/
  | assignSkip (s : SysState) (j k i : Nat) (w : MWorker) :
      s.dpc = .assign j k i →
      s.workers.get? k = some w →
      w.status ≠ .idle →
      DispStep s { s with dpc := .assign j (k + 1) i }
  /-- The for-loop of line 162 is exhausted; back to the while loop head
  (lines 165-166). -/
  | passDone (s : SysState) (j k i : Nat) :
      s.dpc = .assign j k i →
      s.workers.length ≤ k →
      DispStep s { s with dpc := .top (i + 1) }

/-- One atomic block of the worker thread running `rsync(w)`,
lines 172-223. -/
inductive WorkStep (w : Nat) : SysState → SysState → Prop
  /-- Line 174: the job is not assigned to this worker; next iteration. -/
  | pass (s : SysState) (i : Nat) (j : MJob) :
      s.wpcs.get? w = some (.scan i) →
      s.jobs.get? (i % s.jobs.length) = some j →
      j.worker ≠ some w →
      WorkStep w s { s with wpcs := s.wpcs.set w (.scan (i + 1)) }
  /-- Lines 174-177: the job is assigned to this worker and observed
  'pending'; the worker logs and sets its own status to 'working'.  The
  write `job['status'] = 'syncing'` of line 179 has not yet happened. -/
  | claim (s : SysState) (i : Nat) (j : MJob) (mw : MWorker) :
      s.wpcs.get? w = some (.scan i) →
      s.jobs.get? (i % s.jobs.length) = some j →
      j.worker = some w →
      j.status = .pending →
      s.workers.get? w = some mw →
      WorkStep w s { s with workers := s.workers.set w { mw with status := .working },
                            wpcs := s.wpcs.set w (.claimed (i % s.jobs.length) i) }
  /-- Lines 179-181: `job['status'] = 'syncing'` and the blocking
  subprocess call begins. -/
  | start (s : SysState) (ji i : Nat) (jb : MJob) :
      s.wpcs.get? w = some (.claimed ji i) →
      s.jobs.get? ji = some jb →
      WorkStep w s { s with jobs := s.jobs.set ji { jb with status := .syncing },
                            wpcs := s.wpcs.set w (.inFlight ji i) }
  /-- Lines 181-201: the subprocess terminates with exit code `c`; the
  outcome is classified and recorded and the worker returns to 'idle'. -/
  | finish (s : SysState) (ji i : Nat) (jb : MJob) (mw : MWorker) (c : Int) :
      s.wpcs.get? w = some (.inFlight ji i) →
      s.jobs.get? ji = some jb →
      s.workers.get? w = some mw →
      WorkStep w s { s with jobs := s.jobs.set ji (attemptResultJob c jb),
                            workers := s.workers.set w { mw with status := .idle },
                            wpcs := s.wpcs.set w (.scan (i + 1)) }
  /-- Lines 202-204: the job assigned to this worker is observed 'syncing';
  only a conflict warning is logged, no state changes. -/
  | conflict (s : SysState) (i : Nat) (j : MJob) :
      s.wpcs.get? w = some (.scan i) →
      s.jobs.get? (i % s.jobs.length) = some j →
      j.worker = some w →
      j.status = .syncing →
      WorkStep w s { s with wpcs := s.wpcs.set w (.scan (i + 1)) }
  /-- Lines 205-208: the job is observed 'broken'; the worker logs and sets
  its own status to 'working'. -/
  | brokenEnter (s : SysState) (i : Nat) (j : MJob) (mw : MWorker) :
      s.wpcs.get? w = some (.scan i) →
      s.jobs.get? (i % s.jobs.length) = some j →
      j.worker = some w →
      j.status = .broken →
      s.workers.get? w = some mw →
      WorkStep w s { s with workers := s.workers.set w { mw with status := .working },
                            wpcs := s.wpcs.set w (.recycling (i % s.jobs.length) i) }
  /-- Lines 209-215: the broken job is recycled (or given up on) by
  `recycleJob` and the worker returns to 'idle'. -/
  | recycleResolve (s : SysState) (ji i : Nat) (jb : MJob) (mw : MWorker) :
      s.wpcs.get? w = some (.recycling ji i) →
      s.jobs.get? ji = some jb →
      s.workers.get? w = some mw →
      WorkStep w s { s with jobs := s.jobs.set ji (recycleJob jb),
                            workers := s.workers.set w { mw with status := .idle },
                            wpcs := s.wpcs.set w (.scan (i + 1)) }
  /-- Lines 216-219: the job is observed 'failed' or 'completed'; only a
  log line is appended. -/
  | terminalSkip (s : SysState) (i : Nat) (j : MJob) :
      s.wpcs.get? w = some (.scan i) →
      s.jobs.get? (i % s.jobs.length) = some j →
      j.worker = some w →
      (j.status = .failed ∨ j.status = .completed) →
      WorkStep w s { s with wpcs := s.wpcs.set w (.scan (i + 1)) }

/-- One atomic block of any thread of the run. -/
inductive Step : SysState → SysState → Prop
  | disp : ∀ {s s' : SysState}, DispStep s s' → Step s s'
  | work : ∀ (w : Nat) {s s' : SysState}, WorkStep w s s' → Step s s'

/-- The state right after startup with `nj` jobs and `nw` workers
(lines 85-109, 227-235): all jobs fresh and 'pending', all workers 'idle',
every thread at the head of its loop with counter 0. -/
def initState (nj nw : Nat) : SysState :=
  { jobs := (List.range nj).map freshJob,
    workers := (List.range nw).map (fun i => { id := i, status := .idle }),
    dpc := .top 0,
    wpcs := List.replicate nw (.scan 0) }

/-- States reachable from startup by interleaved thread blocks. -/
def Reachable (nj nw : Nat) (s : SysState) : Prop :=
  Relation.ReflTransGen Step (initState nj nw) s

/-! ### Basic facts about the exit-code classification and the job-visit
functions. -/

theorem rsync_zero_completed : rsyncOutcomeStatus 0 = .completed := rfl

theorem rsync_lt20_failed {c : Int} (h0 : c ≠ 0) (hlt : c < 20) :
    rsyncOutcomeStatus c = .failed := by
  unfold rsyncOutcomeStatus
  rw [if_neg h0, if_pos hlt]

theorem rsync_ge20_broken {c : Int} (hge : 20 ≤ c) :
    rsyncOutcomeStatus c = .broken := by
  unfold rsyncOutcomeStatus
  rw [if_neg (by omega), if_neg (by omega)]

theorem visitJob_pending {j : MJob} (h : j.status = .pending) (c : Int) :
    visitJob c j = attemptResultJob c j := by
  unfold visitJob
  rw [h]

theorem visitJob_broken {j : MJob} (h : j.status = .broken) (c : Int) :
    visitJob c j = recycleJob j := by
  unfold visitJob
  rw [h]

theorem visitJob_syncing {j : MJob} (h : j.status = .syncing) (c : Int) :
    visitJob c j = j := by
  unfold visitJob
  rw [h]

theorem visitJob_failed {j : MJob} (h : j.status = .failed) (c : Int) :
    visitJob c j = j := by
  unfold visitJob
  rw [h]

theorem visitJob_completed {j : MJob} (h : j.status = .completed) (c : Int) :
    visitJob c j = j := by
  unfold visitJob
  rw [h]

theorem recycleJob_of_pos {j : MJob} (h : 0 < j.retry) :
    recycleJob j = { j with retry := j.retry - 1, status := .pending } := by
  unfold recycleJob
  rw [if_pos h]

theorem recycleJob_of_nonpos {j : MJob} (h : ¬0 < j.retry) :
    recycleJob j = { j with status := .failed } := by
  unfold recycleJob
  rw [if_neg h]

theorem runTrace_succ (out : Nat → Int) (j : MJob) (n : Nat) :
    runTrace out j (n + 1) = visitJob (out n) (runTrace out j n) := rfl

/-! ### C2: exit-code classification boundary. -/

/-- C2.  A terminated transfer command is classified exactly at the 20
boundary (pfetch.py lines 181-198): exit code 0 gives 'completed', any
nonzero exit code strictly below 20 gives 'failed' (in particular 19), and
any exit code at least 20 gives 'broken' (in particular 20). -/
theorem claim_C2_exit_code_boundary :
    rsyncOutcomeStatus 0 = .completed ∧
    (∀ c : Int, c ≠ 0 → c < 20 → rsyncOutcomeStatus c = .failed) ∧
    (∀ c : Int, 20 ≤ c → rsyncOutcomeStatus c = .broken) ∧
    rsyncOutcomeStatus 19 = .failed ∧
    rsyncOutcomeStatus 20 = .broken :=
  ⟨rfl, fun _ h0 hlt => rsync_lt20_failed h0 hlt, fun _ hge => rsync_ge20_broken hge,
    by decide, by decide⟩

/-- Witness for C2 at the boundary exit codes 19 and 20. -/
theorem claim_C2_exit_code_boundary_witness :
    ((19 : Int) ≠ 0 ∧ (19 : Int) < 20 ∧ rsyncOutcomeStatus 19 = .failed) ∧
    ((20 : Int) ≤ 20 ∧ rsyncOutcomeStatus 20 = .broken) :=
  ⟨⟨by decide, by decide, claim_C2_exit_code_boundary.2.1 19 (by decide) (by decide)⟩,
    ⟨by decide, claim_C2_exit_code_boundary.2.2.1 20 (by decide)⟩⟩

/-! ### C4: a process-level crash of the command invocation is NOT caught.

The `except` clause of pfetch.py line 188 names only
`subprocess.CalledProcessError`.  When `subprocess.check_output` itself
fails to execute the command (Python raises `OSError`), no handler matches:
the exception propagates out of the `while` loop of `rsync`, the worker
thread terminates, and the job is left in 'syncing' — it never becomes
'failed'. -/

/-- Counterexample to C4 as stated: on a process-level crash of the
invocation the job's status is left 'syncing' (not set to 'failed') and the
worker's scanning loop terminates instead of continuing. -/
theorem counterexample_C4_crash_uncaught :
    (workerAttempt .execError (freshJob 0)).1.status = .syncing ∧
    (workerAttempt .execError (freshJob 0)).2 = false ∧
    ¬((workerAttempt .execError (freshJob 0)).1.status = .failed ∧
      (workerAttempt .execError (freshJob 0)).2 = true) := by
  decide

/-- C4 amended: only `CalledProcessError` (the command ran and exited
nonzero) is caught and classified, with the worker loop surviving; if
invoking the external command itself crashes at the process level, the
exception is not caught: the job keeps status 'syncing' and the worker's
scanning loop terminates. -/
theorem claim_C4_amended_crash_kills_worker :
    (∀ j : MJob, workerAttempt .execError j = ({ j with status := .syncing }, false)) ∧
    (∀ (j : MJob) (c : Int),
      (workerAttempt (.exited c) j).2 = true ∧
      (workerAttempt (.exited c) j).1.status = rsyncOutcomeStatus c) :=
  ⟨fun _ => rfl, fun _ _ => ⟨rfl, rfl⟩⟩

/-! ### C7: recycling a broken job does not clear `job['worker']`.

Lines 209-211 execute only `job['retry'] -= 1` and
`job['status'] = 'pending'`; `job['worker']` keeps the assigned worker id,
so the job is always retried by the same worker and is never re-routed. -/

/-- Counterexample to C7 as stated: recycling a broken job with positive
retry budget sets it back to 'pending' but leaves `job['worker']` assigned
(here worker 1), instead of clearing it to `None`. -/
theorem counterexample_C7_worker_not_cleared :
    (0 : Int) < ({ id := 2, status := .broken, worker := some 1, retry := 5, ret := some 23 } : MJob).retry ∧
    recycleJob { id := 2, status := .broken, worker := some 1, retry := 5, ret := some 23 } =
      { id := 2, status := .pending, worker := some 1, retry := 4, ret := some 23 } ∧
    (recycleJob { id := 2, status := .broken, worker := some 1, retry := 5, ret := some 23 }).worker ≠ none := by
  decide

/-- C7 amended: for a broken job with positive retry budget the recycle
operation decrements the budget and sets the status back to 'pending', but
leaves `assigned_worker` unchanged (it is not cleared to `None`), so the
job stays routed to the same worker. -/
theorem claim_C7_amended_recycle_keeps_worker (j : MJob) (h : 0 < j.retry) :
    recycleJob j = { j with retry := j.retry - 1, status := .pending } ∧
    (recycleJob j).worker = j.worker ∧
    (recycleJob j).status = .pending := by
  rw [recycleJob_of_pos h]
  exact ⟨rfl, rfl, rfl⟩

/-- Witness for the amended C7 on a concrete broken job. -/
theorem claim_C7_amended_recycle_keeps_worker_witness :
    (0 : Int) < ({ id := 2, status := .broken, worker := some 1, retry := 5, ret := some 23 } : MJob).retry ∧
    (recycleJob { id := 2, status := .broken, worker := some 1, retry := 5, ret := some 23 }).worker =
      ({ id := 2, status := .broken, worker := some 1, retry := 5, ret := some 23 } : MJob).worker :=
  ⟨by decide,
    (claim_C7_amended_recycle_keeps_worker
      { id := 2, status := .broken, worker := some 1, retry := 5, ret := some 23 } (by decide)).2.1⟩

/-! ### C6: numbering of the broken-attempt log files.

Line 199 names the file with `retry - job['retry']`, evaluated before the
decrement of line 210; at the n-th transient failure `job['retry']` is
still `retry - (n - 1)`, so the file is `...try_<n-1>.log` — the first
transient failure writes `try_0`, not `try_1`. -/

/-- Counterexample to C6 as stated: the first transient failure (exit code
23) of job 2 writes `fetch_broken.job_2.try_0.log`, not
`fetch_broken.job_2.try_1.log`. -/
theorem counterexample_C6_first_try_is_zero :
    visitLog 23 (runTrace (fun _ => (23 : Int)) (freshJob 2) 0) =
      some "fetch_broken.job_2.try_0.log" ∧
    some "fetch_broken.job_2.try_0.log" ≠ some "fetch_broken.job_2.try_1.log" := by
  decide

/-! ### C9: manifest parsing drops the last character of an unterminated
final line.

Line 74 is `fetch_list = [line[:-1] for line in f]`: every line loses its
final character.  For a line ending in a newline this strips the newline;
for a final line with no trailing newline it strips the last character of
the path itself. -/

/-- C9 is a code bug: with a trailing newline the manifest parses to the
full paths, but when the final line `c/d` is not newline-terminated the
code yields `c/`, silently dropping the path's last character, contrary to
the spec's standard line-splitting contract. -/
theorem claim_C9_unterminated_last_line_truncated :
    fetchListOf "a/b.fits\nc/d\n" = ["a/b.fits", "c/d"] ∧
    fetchListOf "a/b.fits\nc/d" = ["a/b.fits", "c/"] ∧
    fetchListOf "a/b.fits\nc/d" ≠ ["a/b.fits", "c/d"] := by
  decide

/-! ### C3: the retry bound on an always-transient job. -/

theorem runTrace_even_shape (jid : Nat) (out : Nat → Int) (hout : ∀ n, 20 ≤ out n) :
    ∀ k, k ≤ 100 →
      (runTrace out (freshJob jid) (2 * k)).status = .pending ∧
      (runTrace out (freshJob jid) (2 * k)).retry = 100 - (k : Int) ∧
      (runTrace out (freshJob jid) (2 * k)).id = jid := by
  intro k
  induction k with
  | zero => exact fun _ => ⟨rfl, by norm_num [runTrace, freshJob, retryBudget], rfl⟩
  | succ k ih =>
    intro hk1
    obtain ⟨hst, hret, hid⟩ := ih (by omega)
    have e2 : 2 * (k + 1) = (2 * k + 1) + 1 := by ring
    have hodd : runTrace out (freshJob jid) (2 * k + 1) =
        attemptResultJob (out (2 * k)) (runTrace out (freshJob jid) (2 * k)) := by
      rw [runTrace_succ, visitJob_pending hst]
    have hodd_st : (runTrace out (freshJob jid) (2 * k + 1)).status = .broken := by
      rw [hodd]
      show rsyncOutcomeStatus (out (2 * k)) = .broken
      exact rsync_ge20_broken (hout _)
    have hodd_ret : (runTrace out (freshJob jid) (2 * k + 1)).retry = 100 - (k : Int) := by
      rw [hodd]
      exact hret
    have hpos : 0 < (runTrace out (freshJob jid) (2 * k + 1)).retry := by
      rw [hodd_ret]
      have : (k : Int) < 100 := by exact_mod_cast (by omega : k < 100)
      omega
    rw [e2, runTrace_succ, visitJob_broken hodd_st, recycleJob_of_pos hpos]
    refine ⟨rfl, ?_, ?_⟩
    · show (runTrace out (freshJob jid) (2 * k + 1)).retry - 1 = 100 - ((k : Nat) + 1 : Int)
      rw [hodd_ret]
      ring
    · show (runTrace out (freshJob jid) (2 * k + 1)).id = jid
      rw [hodd]
      exact hid

theorem runTrace_odd_shape (jid : Nat) (out : Nat → Int) (hout : ∀ n, 20 ≤ out n) :
    ∀ k, k ≤ 100 →
      (runTrace out (freshJob jid) (2 * k + 1)).status = .broken ∧
      (runTrace out (freshJob jid) (2 * k + 1)).retry = 100 - (k : Int) ∧
      (runTrace out (freshJob jid) (2 * k + 1)).id = jid := by
  intro k hk
  obtain ⟨hst, hret, hid⟩ := runTrace_even_shape jid out hout k hk
  have hodd : runTrace out (freshJob jid) (2 * k + 1) =
      attemptResultJob (out (2 * k)) (runTrace out (freshJob jid) (2 * k)) := by
    rw [runTrace_succ, visitJob_pending hst]
  refine ⟨?_, ?_, ?_⟩
  · rw [hodd]
    exact rsync_ge20_broken (hout _)
  · rw [hodd]
    exact hret
  · rw [hodd]
    exact hid

theorem runTrace_never_completed (jid : Nat) (out : Nat → Int) (hout : ∀ n, 20 ≤ out n) :
    ∀ n, (runTrace out (freshJob jid) n).status ≠ .completed := by
  intro n
  induction n with
  | zero => exact fun h => by cases h
  | succ n ih =>
    rw [runTrace_succ]
    cases hst : (runTrace out (freshJob jid) n).status with
    | pending =>
        rw [visitJob_pending hst]
        show rsyncOutcomeStatus (out n) = .completed → False
        rw [rsync_ge20_broken (hout n)]
        exact fun h => by cases h
    | syncing => rw [visitJob_syncing hst]; rw [hst]; exact fun h => by cases h
    | broken =>
        rw [visitJob_broken hst]
        unfold recycleJob
        split
        · exact fun h => by cases h
        · exact fun h => by cases h
    | failed => rw [visitJob_failed hst]; rw [hst]; exact fun h => by cases h
    | completed => exact absurd hst ih

/-- C3.  With the default retry budget 100 (pfetch.py line 53), a job whose
transfer attempts all exit with code at least 20 is recycled from 'broken'
back to 'pending' exactly 100 times — the recycles are precisely the visits
at odd indices `2k+1` for `k < 100`, each decrementing `retries_left` by
one, and these are the only operations that change `retries_left` — after
which the 101st broken visit (index 201, budget exhausted) makes the job
'failed' permanently; the job is never 'completed'. -/
theorem claim_C3_retry_bound (jid : Nat) (out : Nat → Int) (hout : ∀ n, 20 ≤ out n) :
    (∀ k, k < 100 →
        (runTrace out (freshJob jid) (2 * k + 1)).status = .broken ∧
        0 < (runTrace out (freshJob jid) (2 * k + 1)).retry ∧
        (runTrace out (freshJob jid) (2 * k + 2)).status = .pending ∧
        (runTrace out (freshJob jid) (2 * k + 2)).retry =
          (runTrace out (freshJob jid) (2 * k + 1)).retry - 1) ∧
    (runTrace out (freshJob jid) 201).status = .broken ∧
    (runTrace out (freshJob jid) 201).retry = 0 ∧
    (runTrace out (freshJob jid) 202).status = .failed ∧
    (∀ m, runTrace out (freshJob jid) (202 + m) = runTrace out (freshJob jid) 202) ∧
    (∀ n, (runTrace out (freshJob jid) n).status ≠ .completed) ∧
    (∀ n, (runTrace out (freshJob jid) (n + 1)).retry = (runTrace out (freshJob jid) n).retry ∨
        ((runTrace out (freshJob jid) n).status = .broken ∧
         0 < (runTrace out (freshJob jid) n).retry ∧
         (runTrace out (freshJob jid) (n + 1)).retry = (runTrace out (freshJob jid) n).retry - 1 ∧
         (runTrace out (freshJob jid) (n + 1)).status = .pending)) := by
  have h201 := runTrace_odd_shape jid out hout 100 (le_refl 100)
  have h201st : (runTrace out (freshJob jid) 201).status = .broken := h201.1
  have h201ret : (runTrace out (freshJob jid) 201).retry = 0 := by
    have := h201.2.1
    norm_num at this
    exact this
  have h202 : (runTrace out (freshJob jid) 202).status = .failed := by
    show (runTrace out (freshJob jid) (201 + 1)).status = .failed
    rw [runTrace_succ, visitJob_broken h201st, recycleJob_of_nonpos (by rw [h201ret]; omega)]
  refine ⟨?_, h201st, h201ret, h202, ?_, runTrace_never_completed jid out hout, ?_⟩
  · intro k hk
    obtain ⟨hbst, hbret, _⟩ := runTrace_odd_shape jid out hout k (by omega)
    have hpos : 0 < (runTrace out (freshJob jid) (2 * k + 1)).retry := by
      rw [hbret]
      have : (k : Int) < 100 := by exact_mod_cast hk
      omega
    have hnext : runTrace out (freshJob jid) (2 * k + 2) =
        { runTrace out (freshJob jid) (2 * k + 1) with
          retry := (runTrace out (freshJob jid) (2 * k + 1)).retry - 1,
          status := .pending } := by
      show runTrace out (freshJob jid) ((2 * k + 1) + 1) = _
      rw [runTrace_succ, visitJob_broken hbst, recycleJob_of_pos hpos]
    exact ⟨hbst, hpos, by rw [hnext], by rw [hnext]⟩
  · intro m
    induction m with
    | zero => rfl
    | succ m ihm =>
      show runTrace out (freshJob jid) ((202 + m) + 1) = _
      rw [runTrace_succ, ihm, visitJob_failed h202]
  · intro n
    cases hst : (runTrace out (freshJob jid) n).status with
    | pending => left; rw [runTrace_succ, visitJob_pending hst]; rfl
    | syncing => left; rw [runTrace_succ, visitJob_syncing hst]
    | broken =>
        by_cases hpos : 0 < (runTrace out (freshJob jid) n).retry
        · right
          refine ⟨rfl, hpos, ?_, ?_⟩
          · rw [runTrace_succ, visitJob_broken hst, recycleJob_of_pos hpos]
          · rw [runTrace_succ, visitJob_broken hst, recycleJob_of_pos hpos]
        · left; rw [runTrace_succ, visitJob_broken hst, recycleJob_of_nonpos hpos]
    | failed => left; rw [runTrace_succ, visitJob_failed hst]
    | completed => left; rw [runTrace_succ, visitJob_completed hst]

/-- Witness for C3: with every attempt exiting 20, the job of id 0 ends
'failed' at visit 202. -/
theorem claim_C3_retry_bound_witness :
    (∀ n : Nat, (20 : Int) ≤ (fun _ => (20 : Int)) n) ∧
    (runTrace (fun _ => (20 : Int)) (freshJob 0) 202).status = .failed :=
  ⟨fun _ => le_refl 20,
    (claim_C3_retry_bound 0 (fun _ => (20 : Int)) (fun _ => le_refl 20)).2.2.2.1⟩

/-! ### C6 (amended): attempt numbering in the broken log names. -/

theorem visitLog_pending {j : MJob} (h : j.status = .pending) (c : Int) :
    visitLog c j = some (if c = 0 then completedLogName j.id
                         else if c < 20 then failedLogName j.id
                         else brokenLogName j.id j.retry) := by
  unfold visitLog
  rw [h]

/-- C6 amended: in an always-transient run, the (k+1)-th transient failure
(the attempt performed at visit `2k`) writes
`fetch_broken.job_<id>.try_<k>.log` — numbering starts at `try_0` for the
first failure, and in particular the first transient failure of job 2
produces `fetch_broken.job_2.try_0.log`. -/
theorem claim_C6_amended_try_numbering (jid : Nat) (out : Nat → Int)
    (hout : ∀ n, 20 ≤ out n) (k : Nat) (hk : k ≤ 100) :
    visitLog (out (2 * k)) (runTrace out (freshJob jid) (2 * k)) =
      some ("fetch_broken.job_" ++ toString jid ++ ".try_" ++ toString k ++ ".log") := by
  obtain ⟨hst, hret, hid⟩ := runTrace_even_shape jid out hout k hk
  rw [visitLog_pending hst, hid]
  have h0 : ¬(out (2 * k) = 0) := by have := hout (2 * k); omega
  have hlt : ¬(out (2 * k) < 20) := by have := hout (2 * k); omega
  rw [if_neg h0, if_neg hlt, hret]
  unfold brokenLogName retryBudget
  have harg : (100 : Int) - (100 - (k : Int)) = (k : Int) := by ring
  rw [harg]
  have : toString ((k : Nat) : Int) = toString k := rfl
  rw [this]

/-- Witness for the amended C6: the second transient failure (k = 1) of
job 2 writes `fetch_broken.job_2.try_1.log`. -/
theorem claim_C6_amended_try_numbering_witness :
    (∀ n : Nat, (20 : Int) ≤ (fun _ => (23 : Int)) n) ∧ 1 ≤ 100 ∧
    visitLog ((fun _ => (23 : Int)) 2) (runTrace (fun _ => (23 : Int)) (freshJob 2) 2) =
      some "fetch_broken.job_2.try_1.log" :=
  ⟨fun _ => by norm_num, by norm_num,
    claim_C6_amended_try_numbering 2 (fun _ => (23 : Int)) (fun _ => by norm_num) 1 (by norm_num)⟩

/-! ### C1 and C5: the dispatch race makes double execution reachable.

The for-loop of lines 162-164 has no `break`: while a job is observed
'pending' and unassigned, the dispatcher writes `job['worker']` once per
idle worker.  Between two such writes a worker thread can pass its own
checks of lines 174-175 (the job still being 'pending', since the write
`job['status'] = 'syncing'` of line 179 happens only later), so two workers
can both reach the blocking subprocess call of line 181 for the same job.
The trace below exhibits this with one job and two workers. -/

theorem reach_double_inflight :
    Relation.ReflTransGen Step (initState 1 2)
      { jobs := [{ id := 0, status := .syncing, worker := some 1, retry := 100, ret := none }],
        workers := [{ id := 0, status := .working }, { id := 1, status := .working }],
        dpc := .assign 0 2 0,
        wpcs := [.inFlight 0 0, .inFlight 0 0] } := by
  have t1 : Relation.ReflTransGen Step (initState 1 2)
      { jobs := [{ id := 0, status := .pending, worker := none, retry := 100, ret := none }],
        workers := [{ id := 0, status := .idle }, { id := 1, status := .idle }],
        dpc := .assign 0 0 0,
        wpcs := [.scan 0, .scan 0] } :=
    Relation.ReflTransGen.refl.tail (Step.disp (DispStep.enter _ 0 (freshJob 0) rfl rfl rfl rfl))
  have t2 : Relation.ReflTransGen Step (initState 1 2)
      { jobs := [{ id := 0, status := .pending, worker := some 0, retry := 100, ret := none }],
        workers := [{ id := 0, status := .idle }, { id := 1, status := .idle }],
        dpc := .assign 0 1 0,
        wpcs := [.scan 0, .scan 0] } :=
    t1.tail (Step.disp (DispStep.assignIdle _ 0 0 0 ⟨0, .idle⟩
      ⟨0, .pending, none, 100, none⟩ rfl rfl rfl rfl))
  have t3 : Relation.ReflTransGen Step (initState 1 2)
      { jobs := [{ id := 0, status := .pending, worker := some 0, retry := 100, ret := none }],
        workers := [{ id := 0, status := .working }, { id := 1, status := .idle }],
        dpc := .assign 0 1 0,
        wpcs := [.claimed 0 0, .scan 0] } :=
    t2.tail (Step.work 0 (WorkStep.claim _ 0 ⟨0, .pending, some 0, 100, none⟩
      ⟨0, .idle⟩ rfl rfl rfl rfl rfl))
  have t4 : Relation.ReflTransGen Step (initState 1 2)
      { jobs := [{ id := 0, status := .pending, worker := some 1, retry := 100, ret := none }],
        workers := [{ id := 0, status := .working }, { id := 1, status := .idle }],
        dpc := .assign 0 2 0,
        wpcs := [.claimed 0 0, .scan 0] } :=
    t3.tail (Step.disp (DispStep.assignIdle _ 0 1 0 ⟨1, .idle⟩
      ⟨0, .pending, some 0, 100, none⟩ rfl rfl rfl rfl))
  have t5 : Relation.ReflTransGen Step (initState 1 2)
      { jobs := [{ id := 0, status := .pending, worker := some 1, retry := 100, ret := none }],
        workers := [{ id := 0, status := .working }, { id := 1, status := .working }],
        dpc := .assign 0 2 0,
        wpcs := [.claimed 0 0, .claimed 0 0] } :=
    t4.tail (Step.work 1 (WorkStep.claim _ 0 ⟨0, .pending, some 1, 100, none⟩
      ⟨1, .idle⟩ rfl rfl rfl rfl rfl))
  have t6 : Relation.ReflTransGen Step (initState 1 2)
      { jobs := [{ id := 0, status := .syncing, worker := some 1, retry := 100, ret := none }],
        workers := [{ id := 0, status := .working }, { id := 1, status := .working }],
        dpc := .assign 0 2 0,
        wpcs := [.inFlight 0 0, .claimed 0 0] } :=
    t5.tail (Step.work 0 (WorkStep.start _ 0 0 ⟨0, .pending, some 1, 100, none⟩ rfl rfl))
  exact t6.tail (Step.work 1 (WorkStep.start _ 0 0 ⟨0, .syncing, some 1, 100, none⟩ rfl rfl))

/-- C1 is violated by the code: from the start state with one job and two
workers, a state is reachable in which worker 0 and worker 1 both have the
external transfer command in flight (`subprocess.check_output`, line 181)
for the same job 0 at the same instant. -/
theorem claim_C1_double_execution_reachable :
    ∃ s : SysState, Reachable 1 2 s ∧
      s.wpcs.get? 0 = some (.inFlight 0 0) ∧
      s.wpcs.get? 1 = some (.inFlight 0 0) :=
  ⟨_, reach_double_inflight, rfl, rfl⟩

/-- C5 is violated by the code: continuing the double-execution trace, a
reachable state has job 0 'completed' (worker 0's command exited 0), and
the very next step (worker 1's stale command exiting 23, lines 188-198)
moves the job out of 'completed' to 'broken'. -/
theorem claim_C5_terminal_status_overwritten :
    ∃ s s2 : SysState, Reachable 1 2 s ∧ Step s s2 ∧
      (s.jobs.get? 0).map MJob.status = some .completed ∧
      (s2.jobs.get? 0).map MJob.status = some .broken := by
  refine ⟨{ jobs := [{ id := 0, status := .completed, worker := some 1, retry := 100, ret := some 0 }],
            workers := [{ id := 0, status := .idle }, { id := 1, status := .working }],
            dpc := .assign 0 2 0,
            wpcs := [.scan 1, .inFlight 0 0] },
          { jobs := [{ id := 0, status := .broken, worker := some 1, retry := 100, ret := some 23 }],
            workers := [{ id := 0, status := .idle }, { id := 1, status := .idle }],
            dpc := .assign 0 2 0,
            wpcs := [.scan 1, .scan 1] },
          ?_, ?_, rfl, rfl⟩
  · exact reach_double_inflight.tail (Step.work 0 (WorkStep.finish _ 0 0
      ⟨0, .syncing, some 1, 100, none⟩ ⟨0, .working⟩ 0 rfl rfl rfl))
  · exact Step.work 1 (WorkStep.finish _ 0 0
      ⟨0, .completed, some 1, 100, some 0⟩ ⟨1, .working⟩ 23 rfl rfl rfl)

/-! ### C8: the dispatcher assigns the LAST idle worker, not the first.

The for-loop of lines 162-164 iterates over the whole pool without a
`break`, overwriting `job['worker']` once per idle worker; the value left
behind is the id of the last idle worker. -/

/-- Counterexample to C8 as stated: with workers 0 and 1 both idle and a
pending unassigned job, a full dispatch pass (no worker thread moves)
leaves `assigned_worker = 1` — the id of the last idle worker — although
the first idle worker in pool order is worker 0, which stayed idle. -/
theorem counterexample_C8_first_idle_not_chosen :
    ∃ s : SysState, Reachable 1 2 s ∧ s.dpc = .top 1 ∧
      (s.jobs.get? 0).map MJob.worker = some (some 1) ∧
      (s.workers.get? 0).map MWorker.status = some .idle ∧
      (s.workers.get? 1).map MWorker.status = some .idle ∧
      some (some 1) ≠ some (some 0) := by
  refine ⟨{ jobs := [{ id := 0, status := .pending, worker := some 1, retry := 100, ret := none }],
            workers := [{ id := 0, status := .idle }, { id := 1, status := .idle }],
            dpc := .top 1,
            wpcs := [.scan 0, .scan 0] }, ?_, rfl, rfl, rfl, rfl, by decide⟩
  have u1 : Relation.ReflTransGen Step (initState 1 2)
      { jobs := [{ id := 0, status := .pending, worker := none, retry := 100, ret := none }],
        workers := [{ id := 0, status := .idle }, { id := 1, status := .idle }],
        dpc := .assign 0 0 0,
        wpcs := [.scan 0, .scan 0] } :=
    Relation.ReflTransGen.refl.tail (Step.disp (DispStep.enter _ 0 (freshJob 0) rfl rfl rfl rfl))
  have u2 : Relation.ReflTransGen Step (initState 1 2)
      { jobs := [{ id := 0, status := .pending, worker := some 0, retry := 100, ret := none }],
        workers := [{ id := 0, status := .idle }, { id := 1, status := .idle }],
        dpc := .assign 0 1 0,
        wpcs := [.scan 0, .scan 0] } :=
    u1.tail (Step.disp (DispStep.assignIdle _ 0 0 0 ⟨0, .idle⟩
      ⟨0, .pending, none, 100, none⟩ rfl rfl rfl rfl))
  have u3 : Relation.ReflTransGen Step (initState 1 2)
      { jobs := [{ id := 0, status := .pending, worker := some 1, retry := 100, ret := none }],
        workers := [{ id := 0, status := .idle }, { id := 1, status := .idle }],
        dpc := .assign 0 2 0,
        wpcs := [.scan 0, .scan 0] } :=
    u2.tail (Step.disp (DispStep.assignIdle _ 0 1 0 ⟨1, .idle⟩
      ⟨0, .pending, some 0, 100, none⟩ rfl rfl rfl rfl))
  exact u3.tail (Step.disp (DispStep.passDone _ 0 2 0 rfl (by decide)))

/-- C8 amended: a full pass of the dispatcher's worker loop leaves
`assigned_worker` equal to the id of the LAST idle worker in pool order
(every idle worker's id is written in turn, the last write winning), or
unchanged when no worker is idle; and no dispatcher step changes any
worker's status. -/
theorem claim_C8_amended_last_idle_assigned :
    (∀ (ws : List MWorker) (jw : Option Nat),
      assignPass ws jw =
        match (ws.filter (fun w => decide (w.status = .idle))).getLast? with
        | some w => some w.id
        | none => jw) ∧
    (∀ s s2 : SysState, DispStep s s2 → s2.workers = s.workers) := by
  constructor
  · intro ws
    induction ws using List.reverseRecOn with
    | nil => intro jw; rfl
    | append_singleton ws w ih =>
      intro jw
      by_cases hw : w.status = .idle
      · show List.foldl _ jw (ws ++ [w]) = _
        rw [List.foldl_append, List.filter_append]
        simp [hw, List.getLast?_concat]
      · show List.foldl _ jw (ws ++ [w]) = _
        rw [List.foldl_append, List.filter_append, List.foldl_cons, List.foldl_nil, if_neg hw,
          show List.filter (fun x => decide (x.status = WStatus.idle)) [w] = [] from by simp [hw],
          List.append_nil]
        exact ih jw
  · intro s s2 h
    cases h <;> rfl

/-- Witness for the amended C8: a concrete pool with two idle workers, and
a concrete dispatcher step (entering the assignment loop from the start
state) that leaves the worker pool untouched. -/
theorem claim_C8_amended_last_idle_assigned_witness :
    assignPass [⟨0, .idle⟩, ⟨1, .idle⟩] none = some 1 ∧
    (DispStep (initState 1 2) { initState 1 2 with dpc := .assign 0 0 0 } ∧
      ({ initState 1 2 with dpc := .assign 0 0 0 } : SysState).workers = (initState 1 2).workers) :=
  ⟨by rw [claim_C8_amended_last_idle_assigned.1 [⟨0, .idle⟩, ⟨1, .idle⟩] none]; decide,
    (fun h => ⟨h, claim_C8_amended_last_idle_assigned.2 _ _ h⟩)
      (DispStep.enter (initState 1 2) 0 (freshJob 0) rfl rfl rfl rfl)⟩

/-! ### C10: the extension classification is case-insensitive.

Line 89 tests `path.splitext(fetch_list[i])[-1].lower() in COMMON_EXTS`:
the extension is lowercased before the membership test, so an entry whose
extension differs only in letter case from a member of `COMMON_EXTS` is
classified exactly like its lowercase form. -/

theorem pyLowerN_eq_dot (n : Nat) : pyLowerN n = 46 ↔ n = 46 := by
  unfold pyLowerN
  split <;> omega

theorem pyLowerN_eq_slash (n : Nat) : pyLowerN n = 47 ↔ n = 47 := by
  unfold pyLowerN
  split <;> omega

theorem pyLowerN_idem (n : Nat) : pyLowerN (pyLowerN n) = pyLowerN n := by
  unfold pyLowerN
  split_ifs <;> omega

theorem rfindIdx_map_pyLowerN (c : Nat) (hc : ∀ n, pyLowerN n = c ↔ n = c) :
    ∀ p : List Nat, rfindIdx c (p.map pyLowerN) = rfindIdx c p := by
  intro p
  induction p with
  | nil => rfl
  | cons x xs ih =>
    rw [List.map_cons]
    unfold rfindIdx
    rw [ih]
    cases hfind : rfindIdx c xs with
    | some i => rfl
    | none =>
      by_cases hx : x = c
      · rw [if_pos ((hc x).mpr hx), if_pos hx]
      · rw [if_neg (fun h => hx ((hc x).mp h)), if_neg hx]

theorem nondot_pred_comp_pyLowerN :
    (fun x => decide (x ≠ 46)) ∘ pyLowerN = fun x => decide (x ≠ 46) :=
  funext fun x => decide_eq_decide.mpr (not_congr (pyLowerN_eq_dot x))

theorem splitextExt_map_pyLowerN (p : List Nat) :
    splitextExt (p.map pyLowerN) = (splitextExt p).map pyLowerN := by
  unfold splitextExt
  rw [rfindIdx_map_pyLowerN 46 pyLowerN_eq_dot p, rfindIdx_map_pyLowerN 47 pyLowerN_eq_slash p]
  cases h46 : rfindIdx 46 p with
  | none => rfl
  | some d =>
    cases h47 : rfindIdx 47 p with
    | none =>
      show (if 0 ≤ d ∧ _ then _ else _) = _
      rw [← List.map_drop, ← List.map_take, List.any_map, nondot_pred_comp_pyLowerN,
        apply_ite (List.map pyLowerN), List.map_nil, ← List.map_drop]
    | some s =>
      show (if s + 1 ≤ d ∧ _ then _ else _) = _
      rw [← List.map_drop, ← List.map_take, List.any_map, nondot_pred_comp_pyLowerN,
        apply_ite (List.map pyLowerN), List.map_nil, ← List.map_drop]

/-- C10.  The single-file classification of a manifest entry is invariant
under changing the letter case of the entry (the code lowercases the
extension before the membership test in `COMMON_EXTS`); in particular
entries with extensions '.FITS' and '.Zip' are classified as single-file
transfers, identically to their lowercase forms. -/
theorem claim_C10_extension_case_insensitive :
    (∀ p : List Nat, isSingleFile (p.map pyLowerN) = isSingleFile p) ∧
    isSingleFile (codes "data/x.FITS") = true ∧
    isSingleFile (codes "a.Zip") = true ∧
    isSingleFile (codes "data/x.FITS") = isSingleFile (codes "data/x.fits") ∧
    isSingleFile (codes "a.Zip") = isSingleFile (codes "a.zip") := by
  refine ⟨?_, by decide, by decide, by decide, by decide⟩
  intro p
  unfold isSingleFile
  rw [splitextExt_map_pyLowerN, List.map_map,
    show pyLowerN ∘ pyLowerN = pyLowerN from funext pyLowerN_idem]
